import Mathlib

/-!
Shallow embedding of the `quantinuum-gug` Rust crate: a typed, port-addressed
graph IR for hybrid quantum/classical circuits.

Modelling conventions:
* Rust `f64` payloads are modelled as exact rationals (`ℚ`).  All concrete
  inputs used in theorems and witnesses are dyadic values on which IEEE-754
  double arithmetic is exact, so the model agrees with the code there.
* `u32`/`usize` indices and counts are modelled as `Nat`, `i64` as `Int`.
* `SecondaryMap<K, V>` (a total map with a default value) is modelled as a
  total function `Nat → V`; `HashMap<TypeId, _>` as `Nat → Option _` with the
  `TypeId` key modelled as a `Nat` tag.
* Functions that can `panic!`/`todo!` are given `Except`-valued embeddings.
-/

set_option autoImplicit false
set_option linter.unusedVariables false

/-- A failed Rust computation: a `todo!()` panic, an `i64` arithmetic
overflow (a panic in debug builds, a wrapped — hence incorrect — value in
release builds), or a rational division by zero (a panic in both). -/
inductive GugPanic where
  | todoPanic
  | overflow
  | divisionByZero
  deriving DecidableEq

/-- `WireType` from `component/wire_type.rs`: what a port carries. -/
inductive WireType where
  | Qubit
  | LinearBit
  | Bool
  | I64
  | F64
  | Quat64
  | Angle
  | SideEffects
  deriving DecidableEq

/-- `Signature` from `component/wire_type.rs`: a node's port shape.
The Rust `nonlinear: [Vec<WireType>; 2]` array is modelled as a pair
(inputs, outputs). -/
structure Signature where
  linear : List WireType
  nonlinear : List WireType × List WireType
  deriving DecidableEq

namespace Signature

/-- `Default for Signature` (derived): all port lists empty. -/
def default : Signature := ⟨[], ([], [])⟩

/-- `Signature::len`. -/
def len (s : Signature) : Nat :=
  s.linear.length + max s.nonlinear.1.length s.nonlinear.2.length

/-- `Signature::is_empty`. -/
def is_empty (s : Signature) : Bool :=
  s.linear.isEmpty && s.nonlinear.1.isEmpty && s.nonlinear.2.isEmpty

/-- `Signature::purely_linear`. -/
def purely_linear (s : Signature) : Bool :=
  s.nonlinear.1.isEmpty && s.nonlinear.2.isEmpty

/-- `Signature::purely_classical`: no `Qubit` anywhere. -/
def purely_classical (s : Signature) : Bool :=
  !(s.linear ++ s.nonlinear.1 ++ s.nonlinear.2).any fun typ => typ = WireType.Qubit

/-- `Signature::num_ports`: (linear + nonlinear-in, linear + nonlinear-out). -/
def num_ports (s : Signature) : Nat × Nat :=
  (s.linear.length + s.nonlinear.1.length, s.linear.length + s.nonlinear.2.length)

/-- `Signature::new`. -/
def new (linear : List WireType) (nonlinear : List WireType × List WireType) :
    Signature :=
  ⟨linear, nonlinear⟩

/-- `Signature::new_linear`. -/
def new_linear (linear : List WireType) : Signature :=
  ⟨linear, ([], [])⟩

/-- `Signature::new_nonlinear`. -/
def new_nonlinear (inputs outputs : List WireType) : Signature :=
  ⟨[], (inputs, outputs)⟩

end Signature

/-- `Rational` newtype over `Rational64` (`num_rational::Ratio<i64>`).  The
carried `ℚ` is the represented value: `Rational64` keeps a reduced fraction
whose numerator and denominator are `i64`, matching `Rat`'s reduced
canonical form; values realizable by the program satisfy
`Rational64.representable`.  Its arithmetic is NOT unbounded-`ℚ` arithmetic:
it overflows `i64`, which the checked operations in the `Rational64`
namespace below make explicit. -/
structure Rational where
  val : ℚ
  deriving DecidableEq

namespace Rational64

/-- `i64::MAX` as a natural number. -/
def MAXn : Nat := 2 ^ 63 - 1

/-- A rational value is representable as a `Rational64` when its reduced
numerator and denominator fit in `i64`. -/
def representable (q : ℚ) : Bool :=
  decide (q.num.natAbs ≤ MAXn) && decide (q.den ≤ MAXn)

/-- Sufficient in-range condition for `Ratio<i64>` addition/subtraction:
the naive cross products and the denominator product fit in `i64`.  The
library computes over the gcd-reduced lcm, so every intermediate it forms
is bounded in magnitude by these naive terms, and the reduced result is
smaller still. -/
def addOk (x y : ℚ) : Bool :=
  decide ((x.num * (y.den : Int)).natAbs + (y.num * (x.den : Int)).natAbs ≤ MAXn) &&
    decide (x.den * y.den ≤ MAXn)

/-- Sufficient in-range condition for `Ratio<i64>` multiplication: the
numerator product and denominator product fit in `i64` (the library first
reduces by the cross gcds, so its intermediates are bounded by these). -/
def mulOk (x y : ℚ) : Bool :=
  decide ((x.num * y.num).natAbs ≤ MAXn) && decide (x.den * y.den ≤ MAXn)

/-- Sufficient in-range condition for `Ratio<i64>` division
`(a/b) / (c/d) = (a*d)/(b*c)`: both cross products fit in `i64`. -/
def divOk (x y : ℚ) : Bool :=
  decide ((x.num * (y.den : Int)).natAbs ≤ MAXn) &&
    decide (((x.den : Int) * y.num).natAbs ≤ MAXn)

/-- Sufficient in-range condition for `Ratio<i64>` negation: the negated
numerator fits (rules out `i64::MIN`). -/
def negOk (x : ℚ) : Bool :=
  decide (x.num.natAbs ≤ MAXn)

/-- `Ratio<i64>` addition: the exact rational sum when the computation
stays in `i64` range, an overflow failure otherwise. -/
def checkedAdd (x y : ℚ) : Except GugPanic ℚ :=
  if addOk x y then .ok (x + y) else .error .overflow

/-- `Ratio<i64>` subtraction (same intermediate bounds as addition). -/
def checkedSub (x y : ℚ) : Except GugPanic ℚ :=
  if addOk x y then .ok (x - y) else .error .overflow

/-- `Ratio<i64>` multiplication. -/
def checkedMul (x y : ℚ) : Except GugPanic ℚ :=
  if mulOk x y then .ok (x * y) else .error .overflow

/-- `Ratio<i64>` division: panics on a zero divisor, overflows outside the
`i64` range, and is the exact rational quotient otherwise. -/
def checkedDiv (x y : ℚ) : Except GugPanic ℚ :=
  if y = 0 then .error .divisionByZero
  else if divOk x y then .ok (x / y) else .error .overflow

/-- `Ratio<i64>` negation. -/
def checkedNeg (x : ℚ) : Except GugPanic ℚ :=
  if negOk x then .ok (-x) else .error .overflow

end Rational64

/-- `AngleValue` from `component/wire_type.rs`: a multiple of π stored either
as a float or as an exact rational.  The `f64` payload is modelled as `ℚ`. -/
inductive AngleValue where
  | F64 (x : ℚ)
  | Rational (r : Rational)
  deriving DecidableEq

namespace AngleValue

/-- `AngleValue::binary_op`: applies `opf` on floats and `opr` on rationals.
Mixing variants converts the rational to float and — exactly as in the
source's or-pattern — passes the float operand as the FIRST argument of
`opf`, regardless of which side it came from.  The float path never fails
(IEEE-754 arithmetic on `f64` does not panic); the rational path inherits
the `i64`-backed library's failure modes. -/
def binary_op (a rhs : AngleValue) (opf : ℚ → ℚ → ℚ)
    (opr : ℚ → ℚ → Except GugPanic ℚ) : Except GugPanic AngleValue :=
  match a, rhs with
  | .F64 x, .F64 y => .ok (.F64 (opf x y))
  | .F64 x, .Rational y | .Rational y, .F64 x => .ok (.F64 (opf x y.val))
  | .Rational x, .Rational y =>
    match opr x.val y.val with
    | .ok r => .ok (.Rational ⟨r⟩)
    | .error e => .error e

/-- `AngleValue::unary_op`. -/
def unary_op (a : AngleValue) (opf : ℚ → ℚ) (opr : ℚ → Except GugPanic ℚ) :
    Except GugPanic AngleValue :=
  match a with
  | .F64 x => .ok (.F64 (opf x))
  | .Rational x =>
    match opr x.val with
    | .ok r => .ok (.Rational ⟨r⟩)
    | .error e => .error e

/-- `impl Add for AngleValue`. -/
def add (a b : AngleValue) : Except GugPanic AngleValue :=
  binary_op a b (fun x y => x + y) Rational64.checkedAdd

/-- `impl Sub for AngleValue`. -/
def sub (a b : AngleValue) : Except GugPanic AngleValue :=
  binary_op a b (fun x y => x - y) Rational64.checkedSub

/-- `impl Mul for AngleValue`. -/
def mul (a b : AngleValue) : Except GugPanic AngleValue :=
  binary_op a b (fun x y => x * y) Rational64.checkedMul

/-- `impl Div for AngleValue`. -/
def div (a b : AngleValue) : Except GugPanic AngleValue :=
  binary_op a b (fun x y => x / y) Rational64.checkedDiv

/-- `impl Neg for AngleValue`. -/
def neg (a : AngleValue) : Except GugPanic AngleValue :=
  unary_op a (fun x => -x) Rational64.checkedNeg

/-- Tests whether an `AngleValue` is the float variant. -/
def isF64 : AngleValue → Bool
  | .F64 _ => true
  | .Rational _ => false

/-- Tests whether an `AngleValue` operation succeeded with a float result. -/
def isOkF64 : Except GugPanic AngleValue → Bool
  | .ok v => v.isF64
  | .error _ => false

end AngleValue

/-- `Quat` newtype over `cgmath::Quaternion<f64>`; four `f64` components
modelled as rationals. -/
structure Quat where
  s : ℚ
  x : ℚ
  y : ℚ
  z : ℚ
  deriving DecidableEq

/-- `ConstValue` from `component/wire_type.rs`. -/
inductive ConstValue where
  | Bool (b : Bool)
  | I64 (i : Int)
  | F64 (x : ℚ)
  | Angle (a : AngleValue)
  | Quat64 (q : Quat)
  deriving DecidableEq

/-- `ConstValue::get_type`. -/
def ConstValue.get_type : ConstValue → WireType
  | .Bool _ => .Bool
  | .I64 _ => .I64
  | .F64 _ => .F64
  | .Angle _ => .Angle
  | .Quat64 _ => .Quat64

namespace Circuit

/-- `circuit::Op` from `component/operation/circuit.rs`: the built-in circuit
operations. -/
inductive Op where
  | H
  | T
  | S
  | X
  | Y
  | Z
  | Tadj
  | Sadj
  | CX
  | ZZMax
  | Reset
  | Input
  | Output
  | Noop (typ : WireType)
  | Measure
  | Barrier
  | AngleAdd
  | AngleMul
  | AngleNeg
  | QuatMul
  | Copy (n_copies : Nat) (typ : WireType)
  | Const (v : ConstValue)
  | RxF64
  | RzF64
  | TK1
  | Rotation
  | ToRotation
  | Xor
  | Select (typ : WireType)
  deriving DecidableEq

/-- `core::mem::discriminant` for `circuit::Op`: the variant tag, ignoring
payloads. -/
def Op.discriminant : Op → Nat
  | .H => 0
  | .T => 1
  | .S => 2
  | .X => 3
  | .Y => 4
  | .Z => 5
  | .Tadj => 6
  | .Sadj => 7
  | .CX => 8
  | .ZZMax => 9
  | .Reset => 10
  | .Input => 11
  | .Output => 12
  | .Noop _ => 13
  | .Measure => 14
  | .Barrier => 15
  | .AngleAdd => 16
  | .AngleMul => 17
  | .AngleNeg => 18
  | .QuatMul => 19
  | .Copy _ _ => 20
  | .Const _ => 21
  | .RxF64 => 22
  | .RzF64 => 23
  | .TK1 => 24
  | .Rotation => 25
  | .ToRotation => 26
  | .Xor => 27
  | .Select _ => 28

/-- `impl PartialEq for circuit::Op`: `Noop`/`Copy`/`Const` compare payloads;
every other pair compares discriminants only. -/
def Op.eq : Op → Op → Bool
  | .Noop l0, .Noop r0 => decide (l0 = r0)
  | .Copy ln lt, .Copy rn rt => decide (ln = rn) && decide (lt = rt)
  | .Const l0, .Const r0 => decide (l0 = r0)
  | a, b => a.discriminant == b.discriminant

/-- `Default for circuit::Op`: a no-op on a qubit wire. -/
def Op.default : Op := .Noop .Qubit

/-- The memoized `ONEQBSIG` signature constant. -/
def ONEQBSIG : Signature := Signature.new_linear [.Qubit]

/-- The memoized `TWOQBSIG` signature constant. -/
def TWOQBSIG : Signature := Signature.new_linear [.Qubit, .Qubit]

/-- Free function `binary_op` from `circuit.rs`: signature of a symmetric
binary primitive on wire type `typ`. -/
def binary_op (typ : WireType) : Signature :=
  Signature.new_nonlinear [typ, typ] [typ]

/-- `circuit::Op::signature`. -/
def Op.signature : Op → Signature
  | .Noop typ => Signature.new_linear [typ]
  | .H | .Reset | .T | .S | .Tadj | .Sadj | .X | .Y | .Z => ONEQBSIG
  | .CX | .ZZMax => TWOQBSIG
  | .Measure => Signature.new_linear [.Qubit, .LinearBit]
  | .AngleAdd | .AngleMul => binary_op .Angle
  | .QuatMul => binary_op .Quat64
  | .AngleNeg => Signature.new_nonlinear [.Angle] [.Angle]
  | .Copy n_copies typ => Signature.new_nonlinear [typ] (List.replicate n_copies typ)
  | .Const x => Signature.new_nonlinear [] [x.get_type]
  | .RxF64 | .RzF64 => Signature.new [.Qubit] ([.Angle], [])
  | .TK1 => Signature.new [.Qubit] (List.replicate 3 .Angle, [])
  | .Rotation => Signature.new [.Qubit] ([.Quat64], [])
  | .ToRotation => Signature.new_nonlinear [.Angle, .F64, .F64, .F64] [.Quat64]
  | .Xor => Signature.new_nonlinear [.Bool, .Bool] [.Bool]
  | .Select wt => Signature.new_nonlinear [.Bool, wt, wt] [wt]
  | _ => Signature.default

/-- `circuit::Op::is_one_qb_gate`: the linear port list is exactly `[Qubit]`. -/
def Op.is_one_qb_gate (op : Op) : Bool :=
  decide (op.signature.linear = [WireType.Qubit])

/-- `circuit::Op::is_two_qb_gate`. -/
def Op.is_two_qb_gate (op : Op) : Bool :=
  decide (op.signature.linear = [WireType.Qubit, WireType.Qubit])

/-- `circuit::Op::is_pure_classical`. -/
def Op.is_pure_classical (op : Op) : Bool :=
  op.signature.purely_classical

/-- Free function `approx_eq` from `circuit.rs`: periodic approximate
equality of two floats modulo `modulo`, with tolerance `tol`.  The `f64`
arithmetic is modelled exactly over `ℚ` (IEEE-754 is exact on the dyadic
inputs used in the theorems below). -/
def approx_eq (x y : ℚ) (modulo : Nat) (tol : ℚ) : Bool :=
  let m : ℚ := (modulo : ℚ)
  let x1 := (x - y) / m
  let x2 := x1 - ((Int.floor x1 : ℤ) : ℚ)
  let r := m * x2
  decide (r < tol) || decide (m - tol < r)

end Circuit

/-- The data part of a `Box<dyn CustomOp>` trait object: the pieces of an
extension-defined opaque operation that the core (and another opaque op's
`eq` override, after downcasting) can observe.  `defData` stands for the
concrete type identity plus definition payload. -/
structure CustomOpData where
  opName : String
  sig : Signature
  defData : Nat
  deriving DecidableEq

/-- A `Box<dyn CustomOp>` trait object: its observable data plus its `eq`
method, which may inspect (downcast) the right-hand operand's data.  The
trait's default `eq` returns `false` unconditionally. -/
structure CustomOp where
  data : CustomOpData
  eqFn : CustomOpData → Bool

/-- `CustomOp::eq` (trait default body): ignores `other` and returns false. -/
def CustomOp.defaultEqFn : CustomOpData → Bool := fun _ => false

/-- Invoking the (possibly overridden) `eq` method of a custom op on
another custom op. -/
def CustomOp.eq (a b : CustomOp) : Bool := a.eqFn b.data

/-- `CustomOp::signature` (a required trait method, stored in the data). -/
def CustomOp.signature (a : CustomOp) : Signature := a.data.sig

/-- `ControlFlowOp` from `component/operation/mod.rs`. -/
inductive ControlFlowOp where
  | Conditional
  | Loop
  deriving DecidableEq

/-- `ControlFlowOp::name`. -/
def ControlFlowOp.name : ControlFlowOp → String
  | .Conditional => "Conditional"
  | .Loop => "Loop"

/-- `ControlFlowOp::signature`: the body is `todo!()`, i.e. an unconditional
panic, modelled as an `Except` error. -/
def ControlFlowOp.signature (_ : ControlFlowOp) :
    Except GugPanic (Option Signature) :=
  .error .todoPanic

/-- The top-level `Op` from `component/operation/mod.rs`. -/
inductive Op where
  | ControlFlow (op : ControlFlowOp)
  | Circuit (op : Circuit.Op)
  | Opaque (op : CustomOp)

/-- `core::mem::discriminant` for the top-level `Op`. -/
def Op.discriminant : Op → Nat
  | .ControlFlow _ => 0
  | .Circuit _ => 1
  | .Opaque _ => 2

/-- `impl PartialEq for Op`: two `Opaque` values use the custom `eq` method;
EVERY other pair (including two `Circuit` values) compares only the outer
discriminant, ignoring the wrapped payloads. -/
def Op.eq : Op → Op → Bool
  | .Opaque l0, .Opaque r0 => l0.eq r0
  | a, b => a.discriminant == b.discriminant

/-- `Op::signature`: `Circuit` and `Opaque` delegate to the payload; the
`_` arm (hit by `ControlFlow`) returns the empty default signature without
calling `ControlFlowOp::signature`. -/
def Op.signature : Op → Signature
  | .Circuit op => op.signature
  | .Opaque op => op.signature
  | _ => Signature.default

/-- `derive(Clone)` for `Op`: payloads are value types (the boxed custom op
is cloned through `CustomOpBoxClone` into an identical box), so cloning is
the identity on the modelled value. -/
def Op.clone (o : Op) : Op := o

/-- `Default for Op`: a circuit no-op on a qubit wire. -/
def Op.default : Op := .Circuit Circuit.Op.default

/-- The `Gug` graph container from `gug.rs`.
* `γ` is the external engine's `PortGraph` connectivity, `η` its `Hierarchy`
  (both opaque to this layer).
* `op_types`/`port_types` are `SecondaryMap`s: total maps over node/port
  indices (modelled as `Nat`).
* `node_metadata`/`port_metadata` are `HashMap<TypeId, SecondaryMap<_, Box<dyn
  ...Metadata>>>`: partial maps from a type tag to a total side table; `α` is
  the type of boxed type-erased metadata values. -/
structure Gug (α γ η : Type) where
  graph : γ
  hierarchy : η
  op_types : Nat → Op
  port_types : Nat → WireType
  node_metadata : Nat → Option (Nat → α)
  port_metadata : Nat → Option (Nat → α)

namespace Gug

variable {α γ η : Type}

/-- `Gug::register_node_metadata::<T>`: `entry(TypeId::of::<T>()).or_insert`
a fresh side table whose every slot holds the default value; a no-op when
the type tag is already present. -/
def register_node_metadata (g : Gug α γ η) (tid : Nat) (dflt : α) :
    Gug α γ η :=
  match g.node_metadata tid with
  | some _ => g
  | none =>
    { g with node_metadata := Function.update g.node_metadata tid (some fun _ => dflt) }

/-- `Gug::register_port_metadata::<T>`. -/
def register_port_metadata (g : Gug α γ η) (tid : Nat) (dflt : α) :
    Gug α γ η :=
  match g.port_metadata tid with
  | some _ => g
  | none =>
    { g with port_metadata := Function.update g.port_metadata tid (some fun _ => dflt) }

/-- `Gug::optype`. -/
def optype (g : Gug α γ η) (node : Nat) : Op := g.op_types node

/-- `Gug::set_optype`: computes (and discards) the signature's port counts —
the port-resizing step is commented out in the source — then overwrites the
node's operation. -/
def set_optype (g : Gug α γ η) (node : Nat) (op : Op) : Gug α γ η :=
  let _ := op.signature.num_ports
  { g with op_types := Function.update g.op_types node op }

/-- `Gug::signature`. -/
def signature (g : Gug α γ η) (node : Nat) : Signature :=
  (g.optype node).signature

/-- `Gug::node_metadata::<T>`: look up the side table for `T`'s tag (`?`
returns `None` when unregistered), then read the slot; the downcast always
succeeds because the table keyed by `T` holds values of type `T`. -/
def node_metadata_get (g : Gug α γ η) (tid : Nat) (node : Nat) : Option α :=
  match g.node_metadata tid with
  | none => none
  | some table => some (table node)

/-- `Gug::node_metadata_mut::<T>`, modelled as writing value `v` through the
returned mutable reference: `None` when `T` is unregistered, otherwise the
updated graph. -/
def node_metadata_set (g : Gug α γ η) (tid : Nat) (node : Nat) (v : α) :
    Option (Gug α γ η) :=
  match g.node_metadata tid with
  | none => none
  | some table =>
    some { g with node_metadata :=
      Function.update g.node_metadata tid (some (Function.update table node v)) }

/-- `Gug::port_metadata::<T>`. -/
def port_metadata_get (g : Gug α γ η) (tid : Nat) (port : Nat) : Option α :=
  match g.port_metadata tid with
  | none => none
  | some table => some (table port)

/-- `Gug::port_metadata_mut::<T>`, modelled as a write. -/
def port_metadata_set (g : Gug α γ η) (tid : Nat) (port : Nat) (v : α) :
    Option (Gug α γ η) :=
  match g.port_metadata tid with
  | none => none
  | some table =>
    some { g with port_metadata :=
      Function.update g.port_metadata tid (some (Function.update table port v)) }

/-- The `node_inserted` callback closure of `Gug::apply_rewrite`, acting on
`(self, replacement)`: `mem::swap` the two op-table slots, then for every
metadata type registered in the replacement AND in the target, `mem::swap`
the two side-table slots. -/
def nodeInserted (self repl : Gug α γ η) (old «new» : Nat) :
    Gug α γ η × Gug α γ η :=
  let selfOps := Function.update self.op_types «new» (repl.op_types old)
  let replOps := Function.update repl.op_types old (self.op_types «new»)
  let selfMeta := fun tid =>
    match repl.node_metadata tid, self.node_metadata tid with
    | some rt, some st => some (Function.update st «new» (rt old))
    | _, st => st
  let replMeta := fun tid =>
    match repl.node_metadata tid, self.node_metadata tid with
    | some rt, some st => some (Function.update rt old (st «new»))
    | rt, _ => rt
  ({ self with op_types := selfOps, node_metadata := selfMeta },
   { repl with op_types := replOps, node_metadata := replMeta })

/-- The `port_inserted` callback closure of `Gug::apply_rewrite`: the same
exchange for the wire type and the registered port-metadata entries. -/
def portInserted (self repl : Gug α γ η) (old «new» : Nat) :
    Gug α γ η × Gug α γ η :=
  let selfPorts := Function.update self.port_types «new» (repl.port_types old)
  let replPorts := Function.update repl.port_types old (self.port_types «new»)
  let selfMeta := fun tid =>
    match repl.port_metadata tid, self.port_metadata tid with
    | some rt, some st => some (Function.update st «new» (rt old))
    | _, st => st
  let replMeta := fun tid =>
    match repl.port_metadata tid, self.port_metadata tid with
    | some rt, some st => some (Function.update rt old (st «new»))
    | rt, _ => rt
  ({ self with port_types := selfPorts, port_metadata := selfMeta },
   { repl with port_types := replPorts, port_metadata := replMeta })

end Gug

/-- The insertion/removal events the external engine's
`apply_with_callbacks` reports back to `Gug::apply_rewrite`. -/
inductive RewriteEvent where
  | nodeRemoved (n : Nat)
  | portRemoved (p : Nat)
  | nodeInserted (old «new» : Nat)
  | portInserted (old «new» : Nat)
  | edgeRewired (a b : Nat)
  deriving DecidableEq

namespace Gug

variable {α γ η : Type}

/-- The payload-transplant part of `Gug::apply_rewrite`: fold the four
callbacks over the event sequence produced by the external engine.  The
removal and edge callbacks are no-ops at this layer (`|_| {}`). -/
def applyRewriteEvents (self repl : Gug α γ η) :
    List RewriteEvent → Gug α γ η × Gug α γ η
  | [] => (self, repl)
  | .nodeInserted old «new» :: evs =>
    let p := nodeInserted self repl old «new»
    applyRewriteEvents p.1 p.2 evs
  | .portInserted old «new» :: evs =>
    let p := portInserted self repl old «new»
    applyRewriteEvents p.1 p.2 evs
  | _ :: evs => applyRewriteEvents self repl evs

end Gug

/-- C6: for every `n` and wire type `t`, `Copy{n_copies: n, typ: t}.signature()`
has an empty linear port list, exactly one nonlinear input of type `t`, and
exactly `n` nonlinear outputs each of type `t`; consequently `num_ports()`
is `(1, n)`. -/
theorem c6_copy_signature (n : Nat) (t : WireType) :
    (Circuit.Op.signature (.Copy n t)).linear = [] ∧
    (Circuit.Op.signature (.Copy n t)).nonlinear.1 = [t] ∧
    (Circuit.Op.signature (.Copy n t)).nonlinear.2 = List.replicate n t ∧
    (Circuit.Op.signature (.Copy n t)).num_ports = (1, n) := by
  refine ⟨rfl, rfl, rfl, ?_⟩
  simp [Circuit.Op.signature, Signature.new_nonlinear, Signature.num_ports]

/-- C10: `Op::signature` on a `ControlFlow` operation is total: it takes the
default arm and returns the empty default signature without invoking the
`ControlFlowOp::signature` stub — whose body, were it invoked, is an
unconditional `todo!()` panic. -/
theorem c10_controlflow_signature_total (cf : ControlFlowOp) :
    Op.signature (.ControlFlow cf) = Signature.default ∧
    ControlFlowOp.signature cf = Except.error GugPanic.todoPanic :=
  ⟨rfl, rfl⟩

/-- The rational `1 / 3^20`, representable as a `Rational64`
(`3^20 = 3486784401 < i64::MAX`). -/
def overflowA : ℚ := ⟨1, 3486784401, by decide, Nat.coprime_one_left _⟩

/-- The rational `1 / 5^15`, representable as a `Rational64`
(`5^15 = 30517578125 < i64::MAX`). -/
def overflowB : ℚ := ⟨1, 30517578125, by decide, Nat.coprime_one_left _⟩

/-- C5 counterexample: the claim quantifies over every pair of rational
operands, but `Rational64` is `i64`-backed.  Both `1/3^20` and `1/5^15` are
representable, yet their exact sum `(3^20 + 5^15) / (3^20 · 5^15)` is
already reduced (the numerator is `2 mod 3` and `1 mod 5`) with denominator
`≈ 1.06·10^20 > i64::MAX`, so no `i64` rational can return the exact
result: the library's computation overflows (a debug-build panic, a wrapped
incorrect value in release), which the model reports as an overflow
failure instead of the exact `Rational` the claim promises. -/
theorem c5_rational_overflow_counterexample :
    Rational64.representable overflowA = true ∧
    Rational64.representable overflowB = true ∧
    AngleValue.add (.Rational ⟨overflowA⟩) (.Rational ⟨overflowB⟩) =
      .error GugPanic.overflow :=
  ⟨by decide, by decide, rfl⟩

/-- C5 (amended): `AngleValue` arithmetic (+, −, ×, ÷, negation) returns the
exact rational result when every operand is `Rational` AND the `i64`-backed
computation stays in range (cross products and denominator product within
`i64`, nonzero divisor for division); whenever at least one operand is
`F64`, every operation succeeds with an `F64` result. -/
theorem c5_anglevalue_arithmetic (x y z : ℚ)
    (hadd : Rational64.addOk x y = true)
    (hmul : Rational64.mulOk x y = true)
    (hdiv : Rational64.divOk x y = true)
    (hneg : Rational64.negOk x = true)
    (hy : y ≠ 0) :
    AngleValue.add (.Rational ⟨x⟩) (.Rational ⟨y⟩) = .ok (.Rational ⟨x + y⟩) ∧
    AngleValue.sub (.Rational ⟨x⟩) (.Rational ⟨y⟩) = .ok (.Rational ⟨x - y⟩) ∧
    AngleValue.mul (.Rational ⟨x⟩) (.Rational ⟨y⟩) = .ok (.Rational ⟨x * y⟩) ∧
    AngleValue.div (.Rational ⟨x⟩) (.Rational ⟨y⟩) = .ok (.Rational ⟨x / y⟩) ∧
    AngleValue.neg (.Rational ⟨x⟩) = .ok (.Rational ⟨-x⟩) ∧
    AngleValue.isOkF64 (AngleValue.add (.Rational ⟨x⟩) (.F64 z)) = true ∧
    AngleValue.isOkF64 (AngleValue.add (.F64 z) (.Rational ⟨x⟩)) = true ∧
    AngleValue.isOkF64 (AngleValue.sub (.Rational ⟨x⟩) (.F64 z)) = true ∧
    AngleValue.isOkF64 (AngleValue.sub (.F64 z) (.Rational ⟨x⟩)) = true ∧
    AngleValue.isOkF64 (AngleValue.mul (.Rational ⟨x⟩) (.F64 z)) = true ∧
    AngleValue.isOkF64 (AngleValue.mul (.F64 z) (.Rational ⟨x⟩)) = true ∧
    AngleValue.isOkF64 (AngleValue.div (.Rational ⟨x⟩) (.F64 z)) = true ∧
    AngleValue.isOkF64 (AngleValue.div (.F64 z) (.Rational ⟨x⟩)) = true ∧
    AngleValue.isOkF64 (AngleValue.neg (.F64 z)) = true := by
  refine ⟨?_, ?_, ?_, ?_, ?_, rfl, rfl, rfl, rfl, rfl, rfl, rfl, rfl, rfl⟩
  · simp [AngleValue.add, AngleValue.binary_op, Rational64.checkedAdd, hadd]
  · simp [AngleValue.sub, AngleValue.binary_op, Rational64.checkedSub, hadd]
  · simp [AngleValue.mul, AngleValue.binary_op, Rational64.checkedMul, hmul]
  · simp [AngleValue.div, AngleValue.binary_op, Rational64.checkedDiv, hy, hdiv]
  · simp [AngleValue.neg, AngleValue.unary_op, Rational64.checkedNeg, hneg]

/-- The rational `1/2` as an explicit reduced fraction. -/
def half64 : ℚ := ⟨1, 2, by decide, Nat.coprime_one_left _⟩

/-- The rational `1` as an explicit reduced fraction. -/
def one64 : ℚ := ⟨1, 1, by decide, Nat.coprime_one_left _⟩

/-- Witness for C5 (amended) at `x = z = 1/2`, `y = 1`: all in-range side
conditions hold, rational-rational arithmetic stays exact-rational and
mixing with a float yields a float. -/
theorem c5_anglevalue_arithmetic_witness :
    Rational64.addOk half64 one64 = true ∧
    Rational64.mulOk half64 one64 = true ∧
    Rational64.divOk half64 one64 = true ∧
    Rational64.negOk half64 = true ∧
    one64 ≠ 0 ∧
    (AngleValue.add (.Rational ⟨half64⟩) (.Rational ⟨one64⟩) =
      .ok (.Rational ⟨half64 + one64⟩) ∧
    AngleValue.sub (.Rational ⟨half64⟩) (.Rational ⟨one64⟩) =
      .ok (.Rational ⟨half64 - one64⟩) ∧
    AngleValue.mul (.Rational ⟨half64⟩) (.Rational ⟨one64⟩) =
      .ok (.Rational ⟨half64 * one64⟩) ∧
    AngleValue.div (.Rational ⟨half64⟩) (.Rational ⟨one64⟩) =
      .ok (.Rational ⟨half64 / one64⟩) ∧
    AngleValue.neg (.Rational ⟨half64⟩) = .ok (.Rational ⟨-half64⟩) ∧
    AngleValue.isOkF64 (AngleValue.add (.Rational ⟨half64⟩) (.F64 half64)) =
      true ∧
    AngleValue.isOkF64 (AngleValue.add (.F64 half64) (.Rational ⟨half64⟩)) =
      true ∧
    AngleValue.isOkF64 (AngleValue.sub (.Rational ⟨half64⟩) (.F64 half64)) =
      true ∧
    AngleValue.isOkF64 (AngleValue.sub (.F64 half64) (.Rational ⟨half64⟩)) =
      true ∧
    AngleValue.isOkF64 (AngleValue.mul (.Rational ⟨half64⟩) (.F64 half64)) =
      true ∧
    AngleValue.isOkF64 (AngleValue.mul (.F64 half64) (.Rational ⟨half64⟩)) =
      true ∧
    AngleValue.isOkF64 (AngleValue.div (.Rational ⟨half64⟩) (.F64 half64)) =
      true ∧
    AngleValue.isOkF64 (AngleValue.div (.F64 half64) (.Rational ⟨half64⟩)) =
      true ∧
    AngleValue.isOkF64 (AngleValue.neg (.F64 half64)) = true) :=
  ⟨by decide, by decide, by decide, by decide, by decide,
    c5_anglevalue_arithmetic half64 one64 half64
      (by decide) (by decide) (by decide) (by decide) (by decide)⟩

/-- C3 counterexample: the claim asserts `approx_eq(x, x, m, tol)` is true
for EVERY `tol ≥ 0`, but the final comparison `r < tol` is strict, so at
`tol = 0` (with `x = 0`, `m = 1`) the function returns `false`. -/
theorem c3_approx_eq_counterexample :
    Circuit.approx_eq 0 0 1 0 = false := by
  norm_num [Circuit.approx_eq]

/-- C3 (amended): `approx_eq(x, x, m, tol)` returns true for every `x`,
every positive modulo `m`, and every strictly positive tolerance. -/
theorem c3_approx_eq_refl (x : ℚ) (modulo : Nat) (tol : ℚ)
    (hm : 0 < modulo) (ht : 0 < tol) :
    Circuit.approx_eq x x modulo tol = true := by
  simp [Circuit.approx_eq, ht]

/-- Witness for C3 (amended) at `x = 1/2`, `m = 2`, `tol = 1`. -/
theorem c3_approx_eq_refl_witness :
    0 < 2 ∧ (0 : ℚ) < 1 ∧
    Circuit.approx_eq (1/2) (1/2) 2 1 = true :=
  ⟨by decide, zero_lt_one, c3_approx_eq_refl (1/2) 2 1 (by decide) zero_lt_one⟩

/-- The spec's equality contract for the circuit operation enum, written
from the spec's words: same variant AND, for the enumerated data-carrying
variants (`Noop`: same wire type; `Copy`: same `n_copies` and type;
`Const`: same value), equal payloads. -/
def circuitEqSpec (a b : Circuit.Op) : Prop :=
  a.discriminant = b.discriminant ∧ circuitPayloadMatch a b
where
  circuitPayloadMatch : Circuit.Op → Circuit.Op → Prop
    | .Noop l0, .Noop r0 => l0 = r0
    | .Copy ln lt, .Copy rn rt => ln = rn ∧ lt = rt
    | .Const l0, .Const r0 => l0 = r0
    | _, _ => True

/-- C1 counterexample: the claim says two `Op` values wrapping different
payload-carrying circuit operations are unequal, but the top-level
`PartialEq for Op` compares only the OUTER discriminant for non-`Opaque`
values, so `Op::Circuit(Copy{3, Qubit})` equals `Op::Circuit(Const(true))`. -/
theorem c1_op_eq_counterexample :
    Op.eq (.Circuit (.Copy 3 .Qubit)) (.Circuit (.Const (.Bool true))) = true :=
  rfl

/-- C1 (amended): equality of circuit operations follows the stated
variant-and-payload contract, but the top-level `Op` equality collapses all
`Circuit`-wrapped values: any two of them compare equal regardless of the
wrapped operation. -/
theorem c1_op_equality_contract :
    (∀ a b : Circuit.Op, Circuit.Op.eq a b = true ↔ circuitEqSpec a b) ∧
    (∀ ca cb : Circuit.Op, Op.eq (.Circuit ca) (.Circuit cb) = true) := by
  constructor
  · intro a b
    cases a <;> cases b <;>
      simp [Circuit.Op.eq, circuitEqSpec, circuitEqSpec.circuitPayloadMatch,
        Circuit.Op.discriminant]
  · intro ca cb
    rfl

/-- A concrete extension-defined opaque operation that keeps the trait's
default `eq` implementation (which returns `false` unconditionally). -/
def defaultEqCustomOp : CustomOp :=
  { data := { opName := "ext", sig := Signature.default, defData := 0 },
    eqFn := CustomOp.defaultEqFn }

/-- C2 counterexample: for an `Opaque` operation whose custom op uses the
trait-default `eq`, `o == o.clone()` is `false`, refuting reflexivity of
equality under cloning for every `Op` value. -/
theorem c2_clone_eq_counterexample :
    Op.eq (.Opaque defaultEqCustomOp) (Op.clone (.Opaque defaultEqCustomOp)) =
      false :=
  rfl

/-- C2 (amended): `o == o.clone()` holds for every `ControlFlow` and every
`Circuit` operation; for an `Opaque` operation it reduces to whatever the
extension's `eq` method answers on the operation's own data — `false` under
the trait default. -/
theorem c2_clone_eq :
    (∀ cf : ControlFlowOp,
      Op.eq (.ControlFlow cf) (Op.clone (.ControlFlow cf)) = true) ∧
    (∀ c : Circuit.Op, Op.eq (.Circuit c) (Op.clone (.Circuit c)) = true) ∧
    (∀ cu : CustomOp,
      Op.eq (.Opaque cu) (Op.clone (.Opaque cu)) = cu.eqFn cu.data) :=
  ⟨fun _ => rfl, fun _ => rfl, fun _ => rfl⟩

/-- C7: registering a metadata type that is already registered is a no-op
(it leaves the container, and hence every stored value, unchanged), and
registering the same type twice in a row equals registering it once. -/
theorem c7_register_metadata_idempotent {α γ η : Type} (g : Gug α γ η)
    (tidN tidP tidN2 tidP2 : Nat) (tn tp : Nat → α) (d d' : α)
    (hn : g.node_metadata tidN = some tn)
    (hp : g.port_metadata tidP = some tp)
    (hn2 : g.node_metadata tidN2 = none)
    (hp2 : g.port_metadata tidP2 = none) :
    g.register_node_metadata tidN d = g ∧
    g.register_port_metadata tidP d = g ∧
    (g.register_node_metadata tidN2 d).register_node_metadata tidN2 d' =
      g.register_node_metadata tidN2 d ∧
    (g.register_port_metadata tidP2 d).register_port_metadata tidP2 d' =
      g.register_port_metadata tidP2 d := by
  refine ⟨?_, ?_, ?_, ?_⟩
  · simp [Gug.register_node_metadata, hn]
  · simp [Gug.register_port_metadata, hp]
  · simp [Gug.register_node_metadata, hn2, Function.update_same]
  · simp [Gug.register_port_metadata, hp2, Function.update_same]

/-- A node-metadata side table used in concrete witnesses. -/
def sampleTableA : Nat → Nat := fun i => i + 7

/-- A port-metadata side table used in concrete witnesses. -/
def sampleTableB : Nat → Nat := fun i => 2 * i

/-- A node-metadata side table for the replacement fragment. -/
def sampleTableC : Nat → Nat := fun i => i + 100

/-- A port-metadata side table for the replacement fragment. -/
def sampleTableD : Nat → Nat := fun i => 3 * i

/-- A concrete graph container (the rewrite target): metadata type tag 0 is
registered for nodes and for ports; every other tag is unregistered. -/
def sampleTarget : Gug Nat Unit Unit :=
  { graph := (), hierarchy := (),
    op_types := fun _ => Op.default,
    port_types := fun _ => WireType.Qubit,
    node_metadata := fun tid => if tid = 0 then some sampleTableA else none,
    port_metadata := fun tid => if tid = 0 then some sampleTableB else none }

/-- A concrete parts-Gug (the rewrite replacement) with the same metadata
type tag 0 registered on both tables. -/
def sampleReplacement : Gug Nat Unit Unit :=
  { graph := (), hierarchy := (),
    op_types := fun _ => Op.Circuit .H,
    port_types := fun _ => WireType.Bool,
    node_metadata := fun tid => if tid = 0 then some sampleTableC else none,
    port_metadata := fun tid => if tid = 0 then some sampleTableD else none }

/-- Witness for C7 on `sampleTarget`: tag 0 is registered (both calls are
no-ops), tag 5 is fresh (the second of two registrations is a no-op). -/
theorem c7_register_metadata_idempotent_witness :
    sampleTarget.node_metadata 0 = some sampleTableA ∧
    sampleTarget.port_metadata 0 = some sampleTableB ∧
    sampleTarget.node_metadata 5 = none ∧
    sampleTarget.port_metadata 5 = none ∧
    (sampleTarget.register_node_metadata 0 0 = sampleTarget ∧
     sampleTarget.register_port_metadata 0 0 = sampleTarget ∧
     (sampleTarget.register_node_metadata 5 0).register_node_metadata 5 1 =
       sampleTarget.register_node_metadata 5 0 ∧
     (sampleTarget.register_port_metadata 5 0).register_port_metadata 5 1 =
       sampleTarget.register_port_metadata 5 0) :=
  ⟨rfl, rfl, rfl, rfl,
    c7_register_metadata_idempotent sampleTarget 0 0 5 5
      sampleTableA sampleTableB 0 1 rfl rfl rfl rfl⟩

/-- C8: looking up (or writing through) a metadata type that was never
registered returns the absent value `none` for nodes and ports alike; the
accessors are total, so no lookup panics. -/
theorem c8_unregistered_metadata_absent {α γ η : Type} (g : Gug α γ η)
    (tidN tidP node port : Nat) (v w : α)
    (hn : g.node_metadata tidN = none) (hp : g.port_metadata tidP = none) :
    g.node_metadata_get tidN node = none ∧
    g.node_metadata_set tidN node v = none ∧
    g.port_metadata_get tidP port = none ∧
    g.port_metadata_set tidP port w = none := by
  simp [Gug.node_metadata_get, Gug.node_metadata_set,
    Gug.port_metadata_get, Gug.port_metadata_set, hn, hp]

/-- Witness for C8 on `sampleTarget` at the unregistered tag 5. -/
theorem c8_unregistered_metadata_absent_witness :
    sampleTarget.node_metadata 5 = none ∧
    sampleTarget.port_metadata 5 = none ∧
    (sampleTarget.node_metadata_get 5 2 = none ∧
     sampleTarget.node_metadata_set 5 2 9 = none ∧
     sampleTarget.port_metadata_get 5 3 = none ∧
     sampleTarget.port_metadata_set 5 3 9 = none) :=
  ⟨rfl, rfl, c8_unregistered_metadata_absent sampleTarget 5 5 2 3 9 9 rfl rfl⟩

/-- C9: `set_optype(node, op)` makes `optype(node)` return `op` and changes
nothing else: the connectivity (hence every node's port count — no resize
happens), the hierarchy, the per-port wire types, both metadata registries,
and every other node's operation are untouched. -/
theorem c9_set_optype_frame {α γ η : Type} (g : Gug α γ η) (node : Nat)
    (op : Op) (m : Nat) (hm : m ≠ node) :
    (g.set_optype node op).optype node = op ∧
    (g.set_optype node op).graph = g.graph ∧
    (g.set_optype node op).hierarchy = g.hierarchy ∧
    (g.set_optype node op).port_types = g.port_types ∧
    (g.set_optype node op).node_metadata = g.node_metadata ∧
    (g.set_optype node op).port_metadata = g.port_metadata ∧
    (g.set_optype node op).optype m = g.optype m := by
  refine ⟨?_, rfl, rfl, rfl, rfl, rfl, ?_⟩
  · simp [Gug.set_optype, Gug.optype, Function.update_same]
  · simp [Gug.set_optype, Gug.optype, Function.update_noteq hm]

/-- Witness for C9: overwrite node 0 of `sampleTarget` with an `H` gate and
observe node 1 (and everything else) unchanged. -/
theorem c9_set_optype_frame_witness :
    (1 : Nat) ≠ 0 ∧
    ((sampleTarget.set_optype 0 (.Circuit .H)).optype 0 = .Circuit .H ∧
     (sampleTarget.set_optype 0 (.Circuit .H)).graph = sampleTarget.graph ∧
     (sampleTarget.set_optype 0 (.Circuit .H)).hierarchy =
       sampleTarget.hierarchy ∧
     (sampleTarget.set_optype 0 (.Circuit .H)).port_types =
       sampleTarget.port_types ∧
     (sampleTarget.set_optype 0 (.Circuit .H)).node_metadata =
       sampleTarget.node_metadata ∧
     (sampleTarget.set_optype 0 (.Circuit .H)).port_metadata =
       sampleTarget.port_metadata ∧
     (sampleTarget.set_optype 0 (.Circuit .H)).optype 1 =
       sampleTarget.optype 1) :=
  ⟨by decide, c9_set_optype_frame sampleTarget 0 (.Circuit .H) 1 (by decide)⟩

/-- C4: each `node-inserted(old, new)` event of `apply_rewrite` exchanges —
swaps, leaving the replacement's slot holding the target's old value — the
`Op` at `target[new]` with the one at `replacement.parts[old]`, and likewise
the side-table entry of every metadata type registered in both containers;
each `port-inserted(old, new)` event does the same for the `WireType` and
the port-metadata entries. -/
theorem c4_rewrite_transplant_exchange {α γ η : Type}
    (self repl : Gug α γ η) (oldN newN oldP newP tidN tidP : Nat)
    (st rt sp rp : Nat → α)
    (hsn : self.node_metadata tidN = some st)
    (hrn : repl.node_metadata tidN = some rt)
    (hsp : self.port_metadata tidP = some sp)
    (hrp : repl.port_metadata tidP = some rp) :
    Gug.applyRewriteEvents self repl [RewriteEvent.nodeInserted oldN newN] =
      Gug.nodeInserted self repl oldN newN ∧
    Gug.applyRewriteEvents self repl [RewriteEvent.portInserted oldP newP] =
      Gug.portInserted self repl oldP newP ∧
    (Gug.nodeInserted self repl oldN newN).1.op_types newN =
      repl.op_types oldN ∧
    (Gug.nodeInserted self repl oldN newN).2.op_types oldN =
      self.op_types newN ∧
    (Gug.nodeInserted self repl oldN newN).1.node_metadata tidN =
      some (Function.update st newN (rt oldN)) ∧
    (Gug.nodeInserted self repl oldN newN).2.node_metadata tidN =
      some (Function.update rt oldN (st newN)) ∧
    (Gug.portInserted self repl oldP newP).1.port_types newP =
      repl.port_types oldP ∧
    (Gug.portInserted self repl oldP newP).2.port_types oldP =
      self.port_types newP ∧
    (Gug.portInserted self repl oldP newP).1.port_metadata tidP =
      some (Function.update sp newP (rp oldP)) ∧
    (Gug.portInserted self repl oldP newP).2.port_metadata tidP =
      some (Function.update rp oldP (sp newP)) := by
  refine ⟨rfl, rfl, ?_, ?_, ?_, ?_, ?_, ?_, ?_, ?_⟩ <;>
    simp [Gug.nodeInserted, Gug.portInserted, hsn, hrn, hsp, hrp,
      Function.update_same]

/-- Witness for C4: exchange node slot `old = 0 → new = 1` and port slot
`old = 0 → new = 1` between `sampleTarget` and `sampleReplacement`, whose
metadata type tag 0 is registered on both sides. -/
theorem c4_rewrite_transplant_exchange_witness :
    sampleTarget.node_metadata 0 = some sampleTableA ∧
    sampleReplacement.node_metadata 0 = some sampleTableC ∧
    sampleTarget.port_metadata 0 = some sampleTableB ∧
    sampleReplacement.port_metadata 0 = some sampleTableD ∧
    (Gug.applyRewriteEvents sampleTarget sampleReplacement
        [RewriteEvent.nodeInserted 0 1] =
      Gug.nodeInserted sampleTarget sampleReplacement 0 1 ∧
    Gug.applyRewriteEvents sampleTarget sampleReplacement
        [RewriteEvent.portInserted 0 1] =
      Gug.portInserted sampleTarget sampleReplacement 0 1 ∧
    (Gug.nodeInserted sampleTarget sampleReplacement 0 1).1.op_types 1 =
      sampleReplacement.op_types 0 ∧
    (Gug.nodeInserted sampleTarget sampleReplacement 0 1).2.op_types 0 =
      sampleTarget.op_types 1 ∧
    (Gug.nodeInserted sampleTarget sampleReplacement 0 1).1.node_metadata 0 =
      some (Function.update sampleTableA 1 (sampleTableC 0)) ∧
    (Gug.nodeInserted sampleTarget sampleReplacement 0 1).2.node_metadata 0 =
      some (Function.update sampleTableC 0 (sampleTableA 1)) ∧
    (Gug.portInserted sampleTarget sampleReplacement 0 1).1.port_types 1 =
      sampleReplacement.port_types 0 ∧
    (Gug.portInserted sampleTarget sampleReplacement 0 1).2.port_types 0 =
      sampleTarget.port_types 1 ∧
    (Gug.portInserted sampleTarget sampleReplacement 0 1).1.port_metadata 0 =
      some (Function.update sampleTableB 1 (sampleTableD 0)) ∧
    (Gug.portInserted sampleTarget sampleReplacement 0 1).2.port_metadata 0 =
      some (Function.update sampleTableD 0 (sampleTableB 1))) :=
  ⟨rfl, rfl, rfl, rfl,
    c4_rewrite_transplant_exchange sampleTarget sampleReplacement 0 1 0 1 0 0
      sampleTableA sampleTableC sampleTableB sampleTableD rfl rfl rfl rfl⟩
